import Mathlib

/-!
Verification of the `goroutine` package (panic-safe goroutine wrapper).

The development shallowly embeds the current sources of the package:
`goroutine.go` (the `Goroutine` struct, `Go`, `New`, `WithRecover`,
`SetDefaultRecoverFunc`, `GetDefaultRecoverFunc`, `panicSafeRecover`,
`defaultRecoverFunc`) and `panic_error.go` (the `panicError` type with its
two shared package-level prototypes `ErrPanicRecovered` and
`ErrRecoverFuncPanicRecovered`, and the methods `Error` and `WithValue`).

Modelling decisions, all taken from the source:

* Panic payloads are `interface\x7b\x7d` values; we model the payload universe as
  `GoVal` with a distinguished `vnil` for the untyped `nil` interface value
  (`recover()` yields exactly the value passed to `panic`, and `panic(nil)`
  makes `recover()` return `nil`, per the language semantics the source is
  written against: both recover sites guard with `r != nil`).
* The two package-level `*panicError` variables are shared mutable objects;
  `WithValue` assigns through the receiver pointer. We therefore model the
  pair of prototype objects as an explicit `Heap` with two cells addressed
  by `Ptr`, and `WithValue` as a heap transformer returning the (aliasing)
  receiver pointer, exactly as `pe.value = v; return pe` does.
* The `done` channel (`make(chan error, 1)`) is modelled by the trace of
  values successfully sent on it plus the number of `close` operations,
  assuming a consumer that eventually drains it. A send is issued while
  `cap` or more earlier messages are still pending exactly when
  `cap < sent.length` counts it; such a send blocks the goroutine until a
  reader arrives.
* A recovery handler (`RecoverFunc`) receives the captured value and the
  send-only channel; its observable behaviour is a heap transformation
  (it may call `WithValue` on the prototypes), the list of values it sends
  into the channel, and optionally a panic value with which it terminates
  abnormally after those sends.
* The work function `f` has no access to `done`; its only interaction with
  the supervision machinery is its termination status, modelled as
  `Option GoVal` (`none` = returns normally, `some v` = panics with `v`).
* A `recover()` call halts an in-flight unwind and returns the panic value
  regardless of the subsequent `r != nil` test, so the "escaping panic"
  component of an execution is computed by the translation and is provably
  `none`; the theorem stating this is a fact about the placement of the
  two `recover()` sites in the source, not an artefact of the model.
-/

namespace GoroutineLib

/-- Universe of Go interface values used as panic payloads and channel
payloads: the `nil` interface value, strings and integers. -/
inductive GoVal where
  | vnil : GoVal
  | vstr : String → GoVal
  | vint : Int → GoVal
deriving DecidableEq, Repr

/-- Rendering of a `GoVal` by the `%v` verb of `fmt.Sprintf`: the nil
interface prints as `<nil>`, strings print verbatim, integers in decimal. -/
def formatV : GoVal → String
  | GoVal.vnil => "<nil>"
  | GoVal.vstr s => s
  | GoVal.vint n => toString n

/-- The `panicError` struct of `panic_error.go`: a custom error message and
the recovered panic value. -/
structure panicError where
  message : String
  value : GoVal
deriving DecidableEq, Repr

/-- `(*panicError).Error` of `panic_error.go`: the message alone when no
value is attached, otherwise `fmt.Sprintf("%s: %v", message, value)`. -/
def panicError.Error (pe : panicError) : String :=
  if pe.value = GoVal.vnil then pe.message
  else pe.message ++ ": " ++ formatV pe.value

/-- Addresses of the two shared package-level `*panicError` prototypes. -/
inductive Ptr where
  | errPanicRecovered : Ptr
  | errRecoverFuncPanicRecovered : Ptr
deriving DecidableEq, Repr

/-- The mutable store holding the two prototype objects that the two
package-level pointers refer to. -/
structure Heap where
  panicRecovered : panicError
  recoverFuncPanicRecovered : panicError
deriving DecidableEq, Repr

/-- Dereference a prototype pointer in a heap. -/
def Heap.deref (h : Heap) : Ptr → panicError
  | Ptr.errPanicRecovered => h.panicRecovered
  | Ptr.errRecoverFuncPanicRecovered => h.recoverFuncPanicRecovered

/-- The package-level initial state of `panic_error.go`: both prototypes
carry their kind message and a nil value. -/
def initHeap : Heap :=
  { panicRecovered :=
      { message := "panic in goroutine recovered", value := GoVal.vnil }
    recoverFuncPanicRecovered :=
      { message := "panic in recover function of goroutine recovered",
        value := GoVal.vnil } }

/-- `(*panicError).WithValue` of `panic_error.go`, as written: it assigns
`pe.value = v` through the shared receiver pointer and returns that same
pointer (`return pe`), so the heap cell is updated in place and the result
aliases the prototype. -/
def WithValue (h : Heap) (p : Ptr) (v : GoVal) : Heap × Ptr :=
  match p with
  | Ptr.errPanicRecovered =>
      ({ h with panicRecovered := { h.panicRecovered with value := v } }, p)
  | Ptr.errRecoverFuncPanicRecovered =>
      ({ h with recoverFuncPanicRecovered :=
          { h.recoverFuncPanicRecovered with value := v } }, p)

/-- A value sent on the `done` channel: either one of the two shared
`*panicError` pointers, or some other error value. -/
inductive ErrMsg where
  | peRef : Ptr → ErrMsg
  | plain : GoVal → ErrMsg
deriving DecidableEq, Repr

/-- State of the `done` channel over a whole launch, assuming a consumer
that eventually drains it: its capacity, the values successfully sent in
order, and how many times it was closed. A send whose index is at least
`cap` was issued while the buffer was full and blocks until a read. -/
structure ChanState where
  cap : Nat
  sent : List ErrMsg
  closes : Nat
deriving DecidableEq, Repr

/-- Observable behaviour of a `RecoverFunc` invoked as `rf(v, done)`: from
the current heap and the captured value, it yields the heap after its own
`WithValue` calls, the list of values it sends into `done`, and `some r2`
when it finishes by panicking with `r2` (`none` when it returns). -/
structure RecoverFunc where
  run : Heap → GoVal → Heap × List ErrMsg × Option GoVal

/-- The built-in default recover function of `goroutine.go`:
`done <- ErrPanicRecovered.WithValue(v)` and nothing else. -/
def defaultRecoverFunc : RecoverFunc :=
  ⟨fun h v =>
    let hp := WithValue h Ptr.errPanicRecovered v
    (hp.1, [ErrMsg.peRef hp.2], none)⟩

/-- `panicSafeRecover(f, done)` of `goroutine.go`: run `f`; a deferred
`recover()` halts any unwind coming out of `f`, and when the recovered
value `r` is non-nil it sends `ErrRecoverFuncPanicRecovered.WithValue(r)`
into `done`. The third component of the result is a panic escaping
`panicSafeRecover` itself. -/
def panicSafeRecover (f : Heap → Heap × List ErrMsg × Option GoVal)
    (h : Heap) : Heap × List ErrMsg × Option GoVal :=
  let out := f h
  match out.2.2 with
  | none => (out.1, out.2.1, none)
  | some r =>
      if r = GoVal.vnil then (out.1, out.2.1, none)
      else
        let hp := WithValue out.1 Ptr.errRecoverFuncPanicRecovered r
        (hp.1, out.2.1 ++ [ErrMsg.peRef hp.2], none)

/-- The `Goroutine` struct of `goroutine.go`: the work function, modelled
by its termination status, and the recover function, which may be nil. -/
structure Goroutine where
  f : Option GoVal
  rf : Option RecoverFunc

/-- The `Go` method of `goroutine.go`: allocate `done` with capacity one,
run `g.f` inside the spawned goroutine under a deferred block that calls
`recover()`, invokes `g.rf` through `panicSafeRecover` when the recovered
value and `g.rf` are both non-nil, and lastly closes `done`. The result is
the final heap, the channel state, and a panic escaping the goroutine. -/
def Goroutine.Go (g : Goroutine) (h : Heap) : Heap × ChanState × Option GoVal :=
  match g.f with
  | none =>
      -- `g.f()` returned; the deferred block recovers nil and closes `done`.
      (h, { cap := 1, sent := [], closes := 1 }, none)
  | some r =>
      -- `g.f()` panicked with `r`; `recover()` halts the unwind.
      match g.rf with
      | some rf =>
          if r = GoVal.vnil then
            (h, { cap := 1, sent := [], closes := 1 }, none)
          else
            let out := panicSafeRecover (fun hh => rf.run hh r) h
            (out.1, { cap := 1, sent := out.2.1, closes := 1 }, out.2.2)
      | none =>
          (h, { cap := 1, sent := [], closes := 1 }, none)

/-- `WithRecover` of `goroutine.go`: replace the stored recover function
and return the same `Goroutine`. -/
def Goroutine.WithRecover (g : Goroutine) (rf : Option RecoverFunc) : Goroutine :=
  { g with rf := rf }

/-- The process-wide mutable slot holding the `defaultRecoverFunc`
package variable of `goroutine.go`. -/
structure GlobalState where
  defaultRF : Option RecoverFunc

/-- `New` of `goroutine.go`: store the work function and capture the value
of the process-wide default recover function slot at this instant. -/
def New (f : Option GoVal) (st : GlobalState) : Goroutine :=
  { f := f, rf := st.defaultRF }

/-- `SetDefaultRecoverFunc` of `goroutine.go`: overwrite the slot. -/
def SetDefaultRecoverFunc (rf : Option RecoverFunc) (st : GlobalState) :
    GlobalState :=
  { st with defaultRF := rf }

/-- `GetDefaultRecoverFunc` of `goroutine.go`: read the slot. -/
def GetDefaultRecoverFunc (st : GlobalState) : Option RecoverFunc :=
  st.defaultRF

/-- The package-level `Go` function of `goroutine.go`:
`New(f).Go()` under the current global state. -/
def GoFunc (f : Option GoVal) (st : GlobalState) (h : Heap) :
    Heap × ChanState × Option GoVal :=
  (New f st).Go h

/-- Result of one receive on the `done` channel after the launch finished:
a buffered value, the zero value from a closed empty channel, or a read
that would block because the channel is empty and unclosed. -/
inductive ReadRes where
  | val : ErrMsg → ReadRes
  | closedZero : ReadRes
  | wouldBlock : ReadRes
deriving DecidableEq, Repr

/-- The `n`-th receive (zero-based) performed by a consumer reading the
channel repeatedly after the launch finished: buffered values arrive in
send order, after which a closed channel yields its zero value and an
unclosed one would block. -/
def nthRead (c : ChanState) (n : Nat) : ReadRes :=
  match c.sent.drop n with
  | m :: _ => ReadRes.val m
  | [] => if 1 ≤ c.closes then ReadRes.closedZero else ReadRes.wouldBlock

/-- Helper: the deferred `recover()` of `panicSafeRecover` halts any unwind
coming out of the wrapped call, so no panic escapes `panicSafeRecover`. -/
theorem panicSafeRecover_no_escape
    (f : Heap → Heap × List ErrMsg × Option GoVal) (h : Heap) :
    (panicSafeRecover f h).2.2 = none := by
  unfold panicSafeRecover
  cases hf : (f h).2.2 with
  | none => simp [hf]
  | some r =>
      by_cases hr : r = GoVal.vnil <;> simp [hf, hr]

/-- Claim C2: for every work behaviour and every installed recover function
(including panicking handlers and the nil handler), no panic raised inside
the spawned execution context of `Go` escapes it, and likewise no panic
escapes a call wrapped by `panicSafeRecover`: the embedded execution is
total and its escaping-panic component is always `none`. -/
theorem go_never_escapes (g : Goroutine) (h : Heap)
    (f : Heap → Heap × List ErrMsg × Option GoVal) :
    (g.Go h).2.2 = none ∧ (panicSafeRecover f h).2.2 = none := by
  refine ⟨?_, panicSafeRecover_no_escape f h⟩
  unfold Goroutine.Go
  cases g.f with
  | none => rfl
  | some r =>
      cases g.rf with
      | none => rfl
      | some rf =>
          by_cases hr : r = GoVal.vnil
          · simp [hr]
          · simp [hr, panicSafeRecover_no_escape]

/-- Claim C4: when the work function completes without panicking, the
launch closes the channel with no value sent, leaves the heap untouched,
and never consults the installed recover function (the result is the same
for every `rf`, which the statement exhibits by quantifying over it). -/
theorem go_normal_completion (rf : Option RecoverFunc) (h : Heap) :
    Goroutine.Go { f := none, rf := rf } h =
      (h, { cap := 1, sent := [], closes := 1 }, none) := rfl

/-- Claim C6: `New` captures the process-wide default recover function by
value at construction time: the constructed task stores the current slot
content, its launch behaviour depends only on that captured handler, and a
later `SetDefaultRecoverFunc` affects only tasks constructed afterwards. -/
theorem new_captures_default (f : Option GoVal) (st : GlobalState)
    (rf2 : Option RecoverFunc) (h : Heap) :
    (New f st).rf = st.defaultRF ∧
    (New f st).Go h = Goroutine.Go { f := f, rf := st.defaultRF } h ∧
    (New f (SetDefaultRecoverFunc rf2 st)).rf = rf2 ∧
    GetDefaultRecoverFunc (SetDefaultRecoverFunc rf2 st) = rf2 :=
  ⟨rfl, rfl, rfl, rfl⟩

/-- Claim C8: for every captured panic value `v`, the built-in default
recover function sends exactly `ErrPanicRecovered.WithValue(v)` into the
sink — one single message, no panic of its own — and the object behind
that pointer then carries payload `v` under the unchanged work-panicked
kind message. -/
theorem defaultRecoverFunc_sends_errPanicRecovered (h : Heap) (v : GoVal) :
    defaultRecoverFunc.run h v =
      ((WithValue h Ptr.errPanicRecovered v).1,
        [ErrMsg.peRef Ptr.errPanicRecovered], none) ∧
    ((defaultRecoverFunc.run h v).1.deref Ptr.errPanicRecovered).value = v ∧
    ((defaultRecoverFunc.run h v).1.deref Ptr.errPanicRecovered).message =
      h.panicRecovered.message :=
  ⟨rfl, rfl, rfl⟩

/-- Claim C9: the `Error` rendering of a `panicError` is the kind message
followed by a colon, a space and the formatted value when a value is
attached, and exactly the kind message alone when the value is nil. -/
theorem error_rendering (msg : String) (v : GoVal) (hv : v ≠ GoVal.vnil) :
    panicError.Error { message := msg, value := v } =
      msg ++ ": " ++ formatV v ∧
    panicError.Error { message := msg, value := GoVal.vnil } = msg := by
  constructor
  · unfold panicError.Error
    rw [if_neg hv]
  · rfl

/-- Witness for C9 at the work-panicked kind message and the payload
"boom". -/
theorem error_rendering_witness :
    GoVal.vstr "boom" ≠ GoVal.vnil ∧
    (panicError.Error ⟨"panic in goroutine recovered", GoVal.vstr "boom"⟩ =
      "panic in goroutine recovered" ++ ": " ++ formatV (GoVal.vstr "boom") ∧
    panicError.Error ⟨"panic in goroutine recovered", GoVal.vnil⟩ =
      "panic in goroutine recovered") :=
  ⟨by decide, error_rendering "panic in goroutine recovered"
    (GoVal.vstr "boom") (by decide)⟩

/-- Claim C10: when the work function panics with the nil value, or when
the stored recover function is nil, the handler is never invoked and the
launch closes the channel with no value sent and the heap untouched —
exactly the result of a normal completion with the same stored handler. -/
theorem silent_completion (g : Goroutine) (h : Heap)
    (hg : g.f = some GoVal.vnil ∨ g.rf = none) :
    g.Go h = (h, { cap := 1, sent := [], closes := 1 }, none) ∧
    g.Go h = Goroutine.Go { f := none, rf := g.rf } h := by
  obtain ⟨f, rf⟩ := g
  rcases hg with hf | hrf
  · cases hf
    cases rf with
    | none => exact ⟨rfl, rfl⟩
    | some rfn => exact ⟨rfl, rfl⟩
  · cases hrf
    cases f with
    | none => exact ⟨rfl, rfl⟩
    | some r => exact ⟨rfl, rfl⟩

/-- The launch used to witness C10: work panics with nil under the built-in
default recover function. -/
def silentG : Goroutine :=
  { f := some GoVal.vnil, rf := some defaultRecoverFunc }

/-- Witness for C10: a work function panicking with nil under the default
handler completes silently, indistinguishable from a normal run. -/
theorem silent_completion_witness :
    (silentG.f = some GoVal.vnil ∨ silentG.rf = none) ∧
    (silentG.Go initHeap =
        (initHeap, { cap := 1, sent := [], closes := 1 }, none) ∧
      silentG.Go initHeap =
        Goroutine.Go { f := none, rf := silentG.rf } initHeap) :=
  ⟨Or.inl rfl, silent_completion silentG initHeap (Or.inl rfl)⟩

/-- A recovery handler that writes nothing to the sink and terminates by
panicking with the nil value. -/
def nilPanicHandler : RecoverFunc :=
  ⟨fun h _ => (h, [], some GoVal.vnil)⟩

/-- The launch refuting C1 as stated: the work panics with "boom" and the
handler itself panics with the nil value. -/
def c1G : Goroutine :=
  { f := some (GoVal.vstr "boom"), rf := some nilPanicHandler }

/-- Counterexample to C1 as stated: when the recovery handler panics with
the nil value, the second recover site sees nil and sends nothing, so the
consumer observes a channel closed with no value instead of
`ErrRecoverFuncPanicRecovered` carrying that value. -/
theorem c1_counterexample :
    (Goroutine.Go c1G initHeap).2.1.sent = [] ∧
    ¬ (∃ m ∈ (Goroutine.Go c1G initHeap).2.1.sent,
        m = ErrMsg.peRef Ptr.errRecoverFuncPanicRecovered) := by
  have hs : (Goroutine.Go c1G initHeap).2.1.sent = [] := rfl
  exact ⟨hs, by simp [hs]⟩

/-- Claim C1 (amended): for every work function that panics with a non-nil
value and every recovery handler that itself panics with a non-nil value
`r2` while processing that failure, the channel carries, after anything
the handler wrote itself, the `ErrRecoverFuncPanicRecovered` pointer whose
object then holds payload `r2` under its recovery-handler-panicked kind
message, the panic does not escape the goroutine, and the channel is
closed. -/
theorem recover_handler_panic_reported (r r2 : GoVal) (rf : RecoverFunc)
    (heap h1 : Heap) (msgs : List ErrMsg)
    (hr : r ≠ GoVal.vnil) (hr2 : r2 ≠ GoVal.vnil)
    (hrun : rf.run heap r = (h1, msgs, some r2)) :
    (Goroutine.Go { f := some r, rf := some rf } heap).2.1.sent =
      msgs ++ [ErrMsg.peRef Ptr.errRecoverFuncPanicRecovered] ∧
    ((Goroutine.Go { f := some r, rf := some rf } heap).1.deref
        Ptr.errRecoverFuncPanicRecovered).value = r2 ∧
    ((Goroutine.Go { f := some r, rf := some rf } heap).1.deref
        Ptr.errRecoverFuncPanicRecovered).message =
      h1.recoverFuncPanicRecovered.message ∧
    (Goroutine.Go { f := some r, rf := some rf } heap).2.2 = none ∧
    (Goroutine.Go { f := some r, rf := some rf } heap).2.1.closes = 1 := by
  simp [Goroutine.Go, panicSafeRecover, WithValue, Heap.deref, hrun, hr, hr2]

/-- The handler used to witness the amended C1: it writes nothing and
panics with "worse". -/
def panicWorseHandler : RecoverFunc :=
  ⟨fun h _ => (h, [], some (GoVal.vstr "worse"))⟩

/-- The launch used to witness the amended C1: work panics with "boom",
the handler panics with "worse". -/
def c1WitnessG : Goroutine :=
  { f := some (GoVal.vstr "boom"), rf := some panicWorseHandler }

/-- Witness for the amended C1 at work panic "boom" and handler panic
"worse". -/
theorem recover_handler_panic_reported_witness :
    GoVal.vstr "boom" ≠ GoVal.vnil ∧
    GoVal.vstr "worse" ≠ GoVal.vnil ∧
    panicWorseHandler.run initHeap (GoVal.vstr "boom") =
      (initHeap, [], some (GoVal.vstr "worse")) ∧
    ((Goroutine.Go c1WitnessG initHeap).2.1.sent =
      [] ++ [ErrMsg.peRef Ptr.errRecoverFuncPanicRecovered] ∧
    ((Goroutine.Go c1WitnessG initHeap).1.deref
        Ptr.errRecoverFuncPanicRecovered).value = GoVal.vstr "worse" ∧
    ((Goroutine.Go c1WitnessG initHeap).1.deref
        Ptr.errRecoverFuncPanicRecovered).message =
      initHeap.recoverFuncPanicRecovered.message ∧
    (Goroutine.Go c1WitnessG initHeap).2.2 = none ∧
    (Goroutine.Go c1WitnessG initHeap).2.1.closes = 1) :=
  ⟨by decide, by decide, rfl,
    recover_handler_panic_reported (GoVal.vstr "boom") (GoVal.vstr "worse")
      panicWorseHandler initHeap initHeap [] (by decide) (by decide) rfl⟩

/-- A handler is sink-disciplined when, on every invocation, it either
writes nothing into the sink, or writes at most one value and returns
normally (so the wrapper never adds a second write after its own). -/
def sinkDisciplined (rf : RecoverFunc) : Prop :=
  ∀ h v, (rf.run h v).2.1 = [] ∨
    ((rf.run h v).2.1.length ≤ 1 ∧ (rf.run h v).2.2 = none)

/-- The built-in default recover function writes exactly one value and
returns normally, hence it is sink-disciplined. -/
theorem defaultRecoverFunc_sinkDisciplined :
    sinkDisciplined defaultRecoverFunc := by
  intro h v
  exact Or.inr ⟨le_refl 1, rfl⟩

/-- Helper: the values sent by `panicSafeRecover` are those of the wrapped
call, possibly followed by the single recovery-handler-panicked message. -/
theorem panicSafeRecover_sent
    (f : Heap → Heap × List ErrMsg × Option GoVal) (h : Heap) :
    (panicSafeRecover f h).2.1 = (f h).2.1 ∨
    (panicSafeRecover f h).2.1 =
      (f h).2.1 ++ [ErrMsg.peRef Ptr.errRecoverFuncPanicRecovered] := by
  unfold panicSafeRecover
  cases hf : (f h).2.2 with
  | none => exact Or.inl (by simp [hf])
  | some r =>
      by_cases hr : r = GoVal.vnil
      · exact Or.inl (by simp [hf, hr])
      · exact Or.inr (by simp [hf, hr, WithValue])

/-- Helper: when the wrapped call returns normally, `panicSafeRecover`
adds nothing. -/
theorem panicSafeRecover_of_none
    (f : Heap → Heap × List ErrMsg × Option GoVal) (h : Heap)
    (hn : (f h).2.2 = none) :
    panicSafeRecover f h = ((f h).1, (f h).2.1, none) := by
  simp [panicSafeRecover, hn]

/-- A handler that writes one value into the sink and then panics, used to
refute C3 as stated. -/
def writeThenPanicHandler : RecoverFunc :=
  ⟨fun h _ => (h, [ErrMsg.plain (GoVal.vstr "handler result")],
    some (GoVal.vstr "worse"))⟩

/-- The launch refuting C3 as stated. -/
def c3G : Goroutine :=
  { f := some (GoVal.vstr "boom"), rf := some writeThenPanicHandler }

/-- Counterexample to C3 as stated: with a handler that writes to the sink
and then panics, two values are sent into the capacity-one channel, so the
second send finds the buffer full and blocks until a reader arrives. -/
theorem c3_counterexample :
    (Goroutine.Go c3G initHeap).2.1.sent.length = 2 ∧
    (Goroutine.Go c3G initHeap).2.1.cap <
      (Goroutine.Go c3G initHeap).2.1.sent.length := by
  exact ⟨rfl, by decide⟩

/-- Claim C3 (amended): provided the installed handler (when any) is
sink-disciplined, at most one value is ever sent into the completion
channel, whose capacity is exactly one, so every send finds room in the
buffer and never blocks. -/
theorem at_most_one_send (g : Goroutine) (heap : Heap)
    (hd : ∀ rfn, g.rf = some rfn → sinkDisciplined rfn) :
    (g.Go heap).2.1.cap = 1 ∧
    (g.Go heap).2.1.sent.length ≤ 1 ∧
    (g.Go heap).2.1.sent.length ≤ (g.Go heap).2.1.cap := by
  obtain ⟨f, rf⟩ := g
  cases f with
  | none => exact ⟨rfl, by simp [Goroutine.Go], by simp [Goroutine.Go]⟩
  | some r =>
      cases rf with
      | none => exact ⟨rfl, by simp [Goroutine.Go], by simp [Goroutine.Go]⟩
      | some rfn =>
          by_cases hr : r = GoVal.vnil
          · subst hr
            exact ⟨rfl, by simp [Goroutine.Go], by simp [Goroutine.Go]⟩
          · have hlen : (panicSafeRecover (fun hh => rfn.run hh r) heap).2.1.length ≤ 1 := by
              rcases hd rfn rfl heap r with he | ⟨hle, hpan⟩
              · rcases panicSafeRecover_sent (fun hh => rfn.run hh r) heap with hs | hs
                · rw [hs]
                  simp [he]
                · rw [hs]
                  simp [he]
              · rw [panicSafeRecover_of_none (fun hh => rfn.run hh r) heap hpan]
                exact hle
            refine ⟨by simp [Goroutine.Go, hr], ?_, ?_⟩
            · simpa [Goroutine.Go, hr] using hlen
            · simpa [Goroutine.Go, hr] using hlen

/-- The launch used to witness the amended C3: work panics under the
built-in default handler. -/
def c3WitnessG : Goroutine :=
  { f := some (GoVal.vstr "boom"), rf := some defaultRecoverFunc }

/-- Witness for the amended C3 with the sink-disciplined default handler:
exactly one value is sent and it fits the capacity-one buffer. -/
theorem at_most_one_send_witness :
    (∀ rfn, c3WitnessG.rf = some rfn → sinkDisciplined rfn) ∧
    ((c3WitnessG.Go initHeap).2.1.cap = 1 ∧
      (c3WitnessG.Go initHeap).2.1.sent.length ≤ 1 ∧
      (c3WitnessG.Go initHeap).2.1.sent.length ≤
        (c3WitnessG.Go initHeap).2.1.cap) := by
  have hd : ∀ rfn, c3WitnessG.rf = some rfn → sinkDisciplined rfn := by
    intro rfn hrfn
    have hrfn2 : some defaultRecoverFunc = some rfn := hrfn
    injection hrfn2 with he
    rw [← he]
    exact defaultRecoverFunc_sinkDisciplined
  exact ⟨hd, at_most_one_send c3WitnessG initHeap hd⟩

/-- First attach-value call of the C5 scenario:
`ErrPanicRecovered.WithValue("a")` on the pristine package state. -/
def c5First : Heap × Ptr :=
  WithValue initHeap Ptr.errPanicRecovered (GoVal.vstr "a")

/-- Second attach-value call of the C5 scenario:
`ErrPanicRecovered.WithValue("b")` performed afterwards. -/
def c5Second : Heap × Ptr :=
  WithValue c5First.1 Ptr.errPanicRecovered (GoVal.vstr "b")

/-- Claim C5 (code observation): `WithValue` assigns through the shared
prototype pointer and returns that very pointer, so the two successive
calls alias each other, the first result now carries "b" rather than "a",
and the value field of the shared prototype is no longer nil. This contradicts
the documentation of the method itself, which promises a copy. -/
theorem withValue_mutates_prototype :
    c5Second.2 = c5First.2 ∧
    (c5Second.1.deref c5First.2).value = GoVal.vstr "b" ∧
    (c5Second.1.deref c5Second.2).value = GoVal.vstr "b" ∧
    c5Second.1.panicRecovered.value = GoVal.vstr "b" ∧
    ¬ ((c5Second.1.deref c5First.2).value = GoVal.vstr "a" ∧
        c5Second.1.panicRecovered.value = GoVal.vnil) :=
  ⟨rfl, rfl, rfl, rfl, by decide⟩

/-- The launch refuting C7 as stated: work panics under the default
handler, so one failure value is buffered at completion. -/
def c7G : Goroutine :=
  { f := some (GoVal.vstr "boom"), rf := some defaultRecoverFunc }

/-- Counterexample to C7 as stated: after a handled panic the first read
observes the buffered failure but the second read observes the closed
no-value zero result of the closed channel, so repeated reads after completion do not
all observe the same terminal state. -/
theorem c7_counterexample :
    nthRead (Goroutine.Go c7G initHeap).2.1 0 =
      ReadRes.val (ErrMsg.peRef Ptr.errPanicRecovered) ∧
    nthRead (Goroutine.Go c7G initHeap).2.1 1 = ReadRes.closedZero ∧
    nthRead (Goroutine.Go c7G initHeap).2.1 0 ≠
      nthRead (Goroutine.Go c7G initHeap).2.1 1 :=
  ⟨rfl, rfl, by decide⟩

/-- Helper: every launch closes the channel exactly once. -/
theorem go_closes_once (g : Goroutine) (heap : Heap) :
    (g.Go heap).2.1.closes = 1 := by
  obtain ⟨f, rf⟩ := g
  cases f with
  | none => rfl
  | some r =>
      cases rf with
      | none => rfl
      | some rfn =>
          by_cases hr : r = GoVal.vnil
          · simp [Goroutine.Go, hr]
          · simp [Goroutine.Go, hr]

/-- Helper: on a closed channel no read blocks. -/
theorem nthRead_ne_block (c : ChanState) (hc : c.closes = 1) (n : Nat) :
    nthRead c n ≠ ReadRes.wouldBlock := by
  unfold nthRead
  cases hd : c.sent.drop n with
  | cons m l => simp
  | nil => simp [hc]

/-- Helper: on a closed channel every read past the buffered values gives
the zero-value closed result. -/
theorem nthRead_drained (c : ChanState) (hc : c.closes = 1) (n : Nat)
    (hn : c.sent.length ≤ n) : nthRead c n = ReadRes.closedZero := by
  unfold nthRead
  rw [List.drop_eq_nil_of_le hn]
  simp [hc]

/-- Claim C7 (amended): every launch closes the channel exactly once, no
read after completion ever blocks, and once the buffered failure values
(at most one under a disciplined handler) have been drained, every further
read observes the same no-value closed state; only the reads of the
buffered prefix observe the failure. -/
theorem finalize_once (g : Goroutine) (heap : Heap) (i j : Nat)
    (hi : (g.Go heap).2.1.sent.length ≤ i)
    (hj : (g.Go heap).2.1.sent.length ≤ j) :
    (g.Go heap).2.1.closes = 1 ∧
    (∀ n, nthRead (g.Go heap).2.1 n ≠ ReadRes.wouldBlock) ∧
    nthRead (g.Go heap).2.1 i = ReadRes.closedZero ∧
    nthRead (g.Go heap).2.1 i = nthRead (g.Go heap).2.1 j := by
  have hc := go_closes_once g heap
  refine ⟨hc, fun n => nthRead_ne_block _ hc n, nthRead_drained _ hc i hi, ?_⟩
  rw [nthRead_drained _ hc i hi, nthRead_drained _ hc j hj]

/-- Witness for the amended C7 at a normally completing launch, reading
positions zero and five. -/
theorem finalize_once_witness :
    ((Goroutine.Go ⟨none, none⟩ initHeap).2.1.sent.length ≤ 0 ∧
      (Goroutine.Go ⟨none, none⟩ initHeap).2.1.sent.length ≤ 5) ∧
    ((Goroutine.Go ⟨none, none⟩ initHeap).2.1.closes = 1 ∧
      (∀ n, nthRead (Goroutine.Go ⟨none, none⟩ initHeap).2.1 n ≠
        ReadRes.wouldBlock) ∧
      nthRead (Goroutine.Go ⟨none, none⟩ initHeap).2.1 0 =
        ReadRes.closedZero ∧
      nthRead (Goroutine.Go ⟨none, none⟩ initHeap).2.1 0 =
        nthRead (Goroutine.Go ⟨none, none⟩ initHeap).2.1 5) :=
  ⟨⟨Nat.le_refl 0, Nat.zero_le 5⟩,
    finalize_once ⟨none, none⟩ initHeap 0 5 (Nat.le_refl 0) (Nat.zero_le 5)⟩

end GoroutineLib
